import Mathlib

/-!
Shallow embedding of the command-execution and output-streaming subsystem of
the KAli repository: class `TerminalWidget` in `src/gui/terminal_emulator.py`,
together with the color palette `get_colors` of `src/gui/styles.py`.

The UI-thread state of the widget is a record `TerminalState`; the shared
event queue is a list of `Msg` values (the tuples the Python code puts on
`output_queue`); the background thread body `run_in_thread` is a function
from the possible behaviors of the child process (spawn failure, mid-read
exception, or normal run) to the final state update and the list of events it
enqueues, in order.
-/

/-- The color dictionary built by `get_colors` in `src/gui/styles.py`. -/
structure Colors where
  background : String
  text_primary : String
  text_secondary : String
  accent : String
  success : String
  warning : String
  danger : String
  info : String
deriving DecidableEq

/-- Embeds `get_colors` of `src/gui/styles.py` (the literal color values). -/
def get_colors : Colors :=
  { background := "#0d1117"
  , text_primary := "#c9d1d9"
  , text_secondary := "#8b949e"
  , accent := "#58a6ff"
  , success := "#3fb950"
  , warning := "#d29922"
  , danger := "#f85149"
  , info := "#a371f7" }

/-- One styled run of text inserted into the `QTextEdit` log by
`append_output`: the inserted text, the foreground color set on the
`QTextCharFormat`, and whether the bold font weight was set. -/
structure Segment where
  text : String
  color : String
  bold : Bool
deriving DecidableEq

/-- The tuples the Python code puts on `output_queue`:
`('output', line)`, `('finished', return_code)`, `('error', str(e))`. -/
inductive Msg where
  | output (line : String)
  | finished (code : Int)
  | error (msg : String)
deriving DecidableEq

/-- True exactly on terminal events (`finished` or `error`). -/
def Msg.isTerminal : Msg → Bool
  | .output _ => false
  | .finished _ => true
  | .error _ => true

/-- True exactly on `error` events. -/
def Msg.isError : Msg → Bool
  | .error _ => true
  | _ => false

/-- True exactly on `finished` events. -/
def Msg.isFinished : Msg → Bool
  | .finished _ => true
  | _ => false

/-- The UI-thread state of a `TerminalWidget`: the `current_process`
reference (a process handle, modelled as a pid), the status label text and
color, whether the stop button is enabled, the styled log content of the
`QTextEdit`, and the list of `command_finished` signal emissions
(return code paired with the plain log text at emission time). -/
structure TerminalState where
  current_process : Option Nat
  status_text : String
  status_color : String
  stop_enabled : Bool
  log : List Segment
  emitted : List (Int × String)
deriving DecidableEq

/-- The widget state right after `__init__` and `setup_ui`: no active
process, status label `● Idle` in the success color, stop button disabled,
empty log, no emissions. -/
def initState : TerminalState :=
  { current_process := none
  , status_text := "● Idle"
  , status_color := get_colors.success
  , stop_enabled := false
  , log := []
  , emitted := [] }

/-- The plain text of the log: what `self.output.toPlainText()` returns,
namely the concatenation of all inserted text runs. -/
def plainText (log : List Segment) : String :=
  String.join (log.map Segment.text)

/-- Embeds `TerminalWidget.append_output(text, style)`: builds a char format
from the style string (`command` → accent + bold, `error` → danger,
`success` → success, anything else → `text_primary`), then inserts the text
at the end of the log with that format. -/
def append_output (st : TerminalState) (text : String) (style : String) :
    TerminalState :=
  let fmt : String × Bool :=
    if style = "command" then (get_colors.accent, true)
    else if style = "error" then (get_colors.danger, false)
    else if style = "success" then (get_colors.success, false)
    else (get_colors.text_primary, false)
  { st with log := st.log ++ [⟨text, fmt.1, fmt.2⟩] }

/-- Embeds `TerminalWidget.on_command_finished(return_code)`: status label
back to `● Idle` in the success color, stop button disabled, success or
failure marker appended, `current_process` cleared, then the
`command_finished` signal emitted with the return code and the full plain
log text. -/
def on_command_finished (st : TerminalState) (return_code : Int) :
    TerminalState :=
  let st1 := { st with status_text := "● Idle"
                     , status_color := get_colors.success
                     , stop_enabled := false }
  let st2 :=
    if return_code = 0 then
      append_output st1 "\n✓ Command completed successfully\n" "success"
    else
      append_output st1
        ("\n✗ Command failed (exit code " ++ toString return_code ++ ")\n")
        "error"
  let st3 := { st2 with current_process := none }
  { st3 with emitted := st3.emitted ++ [(return_code, plainText st3.log)] }

/-- Embeds the body of the drain loop in `TerminalWidget.update_output`:
dispatch one queue tuple to `append_output` or `on_command_finished`.
An `error` event only appends an error-styled line. -/
def processMsg (st : TerminalState) (m : Msg) : TerminalState :=
  match m with
  | .output data => append_output st data "output"
  | .finished code => on_command_finished st code
  | .error data => append_output st ("\nError: " ++ data ++ "\n") "error"

/-- Embeds `TerminalWidget.update_output`: pops every currently available
event from the queue (given here as the list of pending events, in queue
order) and processes each; `get_nowait` raising `Empty` on the exhausted
queue ends the loop without blocking. -/
def update_output (st : TerminalState) (queue : List Msg) : TerminalState :=
  queue.foldl processMsg st

/-- The UI-thread part of `TerminalWidget.execute_command`, before the
background thread is started: echo the command with `command` styling, set
the status label to `● Running` in the warning color, enable the stop
button. No check of `current_process` is performed. -/
def execute_command_ui (st : TerminalState) (command : String) :
    TerminalState :=
  let st1 := append_output st ("\n$ " ++ command ++ "\n") "command"
  { st1 with status_text := "● Running"
           , status_color := get_colors.warning
           , stop_enabled := true }

/-- The possible executions of the `run_in_thread` body of
`TerminalWidget.execute_command`: `Popen` itself raises; `Popen` succeeds
(assigning the new process handle) but reading or waiting raises after some
lines were read; or the process runs to completion with an exit code. -/
inductive ProcBehavior where
  | spawnFail (msg : String)
  | readFail (pid : Nat) (linesBefore : List String) (msg : String)
  | runs (pid : Nat) (lines : List String) (code : Int)
deriving DecidableEq

/-- Whether this execution of `run_in_thread` spawned a child process
(`Popen` returned). -/
def ProcBehavior.spawnsChild : ProcBehavior → Bool
  | .spawnFail _ => false
  | .readFail _ _ _ => true
  | .runs _ _ _ => true

/-- Embeds the `run_in_thread` closure of `TerminalWidget.execute_command`:
the whole body is wrapped in try/except, so it never lets an exception
escape. On successful spawn it overwrites `self.current_process` with the
new handle, puts one `('output', line)` tuple per nonempty line read (the
`iter(readline, '')` loop with the `if line:` guard), and after end of
stream waits and puts one `('finished', return_code)` tuple. If anything
raises, the except clause puts one `('error', str(e))` tuple instead.
Returns the state update and the enqueued events in order. -/
def run_in_thread (st : TerminalState) :
    ProcBehavior → TerminalState × List Msg
  | .spawnFail msg => (st, [Msg.error msg])
  | .readFail pid ls msg =>
      ({ st with current_process := some pid },
       ((ls.filter (fun l => l ≠ "")).map Msg.output) ++ [Msg.error msg])
  | .runs pid lines code =>
      ({ st with current_process := some pid },
       ((lines.filter (fun l => l ≠ "")).map Msg.output)
         ++ [Msg.finished code])

/-- Embeds `TerminalWidget.execute_command(command)` as a whole: the
UI-thread part followed by the spawned thread body. Returns the resulting
state and the events the thread enqueues. -/
def execute_command (st : TerminalState) (command : String)
    (b : ProcBehavior) : TerminalState × List Msg :=
  run_in_thread (execute_command_ui st command) b

/-- Embeds `TerminalWidget.stop_command`: if `current_process` is set, call
`terminate()` on it (non-blocking; the Boolean records that the signal was
sent) and append the termination notice with style string `'warning'`;
otherwise do nothing. The body never touches `output_queue`, so the list of
events it enqueues is empty in both branches. -/
def stop_command (st : TerminalState) : TerminalState × Bool × List Msg :=
  match st.current_process with
  | some _ =>
      (append_output st "\n⚠ Command terminated by user\n" "warning",
       true, [])
  | none => (st, false, [])

/-- Embeds `TerminalWidget.save_output`: given the path chosen in the save
dialog (the empty string when the dialog was cancelled, making `if path:`
falsy) and the file-system write operation (path and content to outcome),
write the full plain log text; the body has no exception handler, so a
failing write propagates its error to the caller. -/
def save_output (st : TerminalState) (path : String)
    (write : String → String → Except String Unit) : Except String Unit :=
  if path = "" then Except.ok ()
  else write path (plainText st.log)

/-- A widget state with an invocation active: process handle 1 held in
`current_process`, status `● Running` in the warning color, stop button
enabled (the state `execute_command` plus `run_in_thread` produce from
`initState` once spawning succeeded). -/
def st_active : TerminalState :=
  { current_process := some 1
  , status_text := "● Running"
  , status_color := get_colors.warning
  , stop_enabled := true
  , log := [⟨"\n$ sleep 5\n", get_colors.accent, true⟩]
  , emitted := [] }

/-- Mapping strings to `output` events never produces an event satisfying a
predicate that is false on every `output` event. -/
theorem filter_map_output_eq_nil (p : Msg → Bool)
    (hp : ∀ s, p (Msg.output s) = false) (ls : List String) :
    (ls.map Msg.output).filter p = [] := by
  induction ls with
  | nil => rfl
  | cons a t ih => simp [List.filter, hp a, ih]

/-- C9: `update_output` is idempotent on an empty queue: with no pending
events the drain step leaves the whole widget state (status, log,
`current_process`, emissions) unchanged. -/
theorem update_output_empty_queue_id (st : TerminalState) :
    update_output st [] = st := rfl

/-- C10: calling `stop_command` when `current_process` is `None` is a
no-op: no termination signal is sent, no warning line is appended, no
widget state changes, and nothing is enqueued. -/
theorem stop_command_inactive_noop (st : TerminalState)
    (h : st.current_process = none) :
    stop_command st = (st, false, []) := by
  simp [stop_command, h]

/-- Witness for C10 at the freshly initialized widget state. -/
theorem stop_command_inactive_noop_witness :
    stop_command initState = (initState, false, []) :=
  stop_command_inactive_noop initState rfl

/-- C2: for a run whose combined output stream yields the given (nonempty)
lines before exit, the thread enqueues exactly one `output` event per line,
in order, followed by exactly one `finished` event carrying the exit code,
enqueued last. -/
theorem run_in_thread_line_events_then_finished (st : TerminalState)
    (pid : Nat) (lines : List String) (code : Int)
    (h : ∀ l ∈ lines, l ≠ "") :
    (run_in_thread st (.runs pid lines code)).2
      = lines.map Msg.output ++ [Msg.finished code] := by
  have hf : lines.filter (fun l => l ≠ "") = lines :=
    List.filter_eq_self.mpr (fun a ha => by simpa using h a ha)
  show (lines.filter (fun l => l ≠ "")).map Msg.output ++ [Msg.finished code]
      = lines.map Msg.output ++ [Msg.finished code]
  rw [hf]

/-- Witness for C2: a two-line run with exit code 0. -/
theorem run_in_thread_line_events_then_finished_witness :
    (run_in_thread initState (.runs 2 ["a\n", "b\n"] 0)).2
      = (["a\n", "b\n"] : List String).map Msg.output ++ [Msg.finished 0] :=
  run_in_thread_line_events_then_finished initState 2 ["a\n", "b\n"] 0
    (by decide)

/-- C5: if spawning raises, exactly one `error` event carrying the error
description is enqueued; if reading raises after some lines, the `error`
events among the enqueued ones are exactly that one; in neither case is a
`finished` event enqueued. The try/except wrapping of `run_in_thread` is
total, so no raw exception reaches the UI thread. -/
theorem run_in_thread_exception_single_error (st : TerminalState)
    (pid : Nat) (ls : List String) (msg : String) :
    (run_in_thread st (.spawnFail msg)).2 = [Msg.error msg] ∧
    ((run_in_thread st (.readFail pid ls msg)).2.filter Msg.isError
      = [Msg.error msg]) ∧
    ((run_in_thread st (.readFail pid ls msg)).2.filter Msg.isFinished
      = []) ∧
    ((run_in_thread st (.spawnFail msg)).2.filter Msg.isFinished = []) := by
  refine ⟨rfl, ?_, ?_, rfl⟩ <;>
    simp [run_in_thread, List.filter_append,
      filter_map_output_eq_nil Msg.isError (fun s => rfl),
      filter_map_output_eq_nil Msg.isFinished (fun s => rfl),
      List.filter, Msg.isError, Msg.isFinished]

/-- C7: every execution of the thread body enqueues exactly one terminal
event (`finished` or `error`) — never zero, never two — and `stop_command`
itself enqueues nothing, so an invocation that is stopped and later exits
still yields exactly one terminal event. -/
theorem run_in_thread_exactly_one_terminal_event (st : TerminalState)
    (b : ProcBehavior) :
    ((run_in_thread st b).2.filter Msg.isTerminal).length = 1 ∧
    (stop_command st).2.2 = [] := by
  constructor
  · cases b <;>
      simp [run_in_thread, List.filter_append,
        filter_map_output_eq_nil Msg.isTerminal (fun s => rfl),
        List.filter, Msg.isTerminal]
  · rcases h : st.current_process with _ | p <;> simp [stop_command, h]

/-- C4: draining a `finished(code)` event sets the status label to idle (in
the success color, stop button disabled), appends a success marker when
`code = 0` and otherwise a failure marker whose text contains the code,
clears `current_process`, and emits the `command_finished` notification
carrying the code and the full accumulated plain log text (markers
included). -/
theorem on_command_finished_effects (st : TerminalState) (code : Int) :
    (processMsg st (Msg.finished code)).status_text = "● Idle" ∧
    (processMsg st (Msg.finished code)).status_color = get_colors.success ∧
    (processMsg st (Msg.finished code)).stop_enabled = false ∧
    (processMsg st (Msg.finished code)).current_process = none ∧
    (processMsg st (Msg.finished code)).log = st.log ++
      [if code = 0 then
         ⟨"\n✓ Command completed successfully\n", get_colors.success, false⟩
       else
         ⟨"\n✗ Command failed (exit code " ++ toString code ++ ")\n",
          get_colors.danger, false⟩] ∧
    (processMsg st (Msg.finished code)).emitted = st.emitted ++
      [(code, plainText (st.log ++
        [if code = 0 then
           ⟨"\n✓ Command completed successfully\n", get_colors.success,
            false⟩
         else
           ⟨"\n✗ Command failed (exit code " ++ toString code ++ ")\n",
            get_colors.danger, false⟩]))] := by
  by_cases h : code = 0 <;>
    simp [processMsg, on_command_finished, append_output, h]

/-- C3 counterexample: draining an `error` event while the widget is in the
running state leaves the status label at `● Running` — it does not return
to idle as the claimed state machine requires — and the active-process
reference is not cleared either. -/
theorem drain_error_keeps_running_status :
    (processMsg st_active (Msg.error "boom")).status_text = "● Running" ∧
    (processMsg st_active (Msg.error "boom")).status_text ≠ "● Idle" ∧
    (processMsg st_active (Msg.error "boom")).current_process = some 1 := by
  decide

/-- C3 amended: only draining a `finished` event transitions the status to
idle; draining an `error` event appends an error-styled line containing the
message but leaves the status text, status color, stop button,
active-process reference and emissions unchanged. -/
theorem drain_terminal_event_status (st : TerminalState) (code : Int)
    (msg : String) :
    (processMsg st (Msg.finished code)).status_text = "● Idle" ∧
    (processMsg st (Msg.error msg)).status_text = st.status_text ∧
    (processMsg st (Msg.error msg)).status_color = st.status_color ∧
    (processMsg st (Msg.error msg)).stop_enabled = st.stop_enabled ∧
    (processMsg st (Msg.error msg)).current_process = st.current_process ∧
    (processMsg st (Msg.error msg)).emitted = st.emitted ∧
    (processMsg st (Msg.error msg)).log = st.log ++
      [⟨"\nError: " ++ msg ++ "\n", get_colors.danger, false⟩] := by
  refine ⟨?_, rfl, rfl, rfl, rfl, rfl, rfl⟩
  by_cases h : code = 0 <;>
    simp [processMsg, on_command_finished, append_output, h]

/-- C1 counterexample: with an invocation active (`current_process = some
1`), calling `execute_command` does not fail fast: a second child process
is spawned, the active-process reference is overwritten with the new
handle, and no `error` event is signalled by the call. -/
theorem execute_command_no_guard_cex :
    st_active.current_process = some 1 ∧
    (execute_command st_active "ls" (.runs 2 ["x\n"] 0)).1.current_process
      = some 2 ∧
    ProcBehavior.spawnsChild (.runs 2 ["x\n"] 0) = true ∧
    ((execute_command st_active "ls" (.runs 2 ["x\n"] 0)).2.filter
      Msg.isError) = [] := by
  decide

/-- C1 amended: calling `execute_command` while an invocation is active
proceeds exactly as an idle start — it spawns the new child, overwrites the
active-process reference with the new handle, sets the status to running —
and signals no `error` event; the previous invocation is simply orphaned. -/
theorem execute_command_while_active_proceeds (st : TerminalState)
    (p pid : Nat) (cmd : String) (lines : List String) (code : Int)
    (h : st.current_process = some p) :
    (execute_command st cmd (.runs pid lines code)).1.current_process
      = some pid ∧
    (execute_command st cmd (.runs pid lines code)).1.status_text
      = "● Running" ∧
    ((execute_command st cmd (.runs pid lines code)).2.filter Msg.isError)
      = [] := by
  refine ⟨rfl, rfl, ?_⟩
  show (((lines.filter (fun l => l ≠ "")).map Msg.output)
      ++ [Msg.finished code]).filter Msg.isError = []
  rw [List.filter_append,
    filter_map_output_eq_nil Msg.isError (fun s => rfl)]
  rfl

/-- Witness for the C1 amended theorem at a concrete active state. -/
theorem execute_command_while_active_proceeds_witness :
    (execute_command st_active "whoami" (.runs 7 [] 5)).1.current_process
      = some 7 ∧
    (execute_command st_active "whoami" (.runs 7 [] 5)).1.status_text
      = "● Running" ∧
    ((execute_command st_active "whoami" (.runs 7 [] 5)).2.filter
      Msg.isError) = [] :=
  execute_command_while_active_proceeds st_active 1 7 "whoami" [] 5 rfl

/-- C6, evaluated at the failing input: `stop_command` with a process
active sends the termination signal without blocking, leaves the status
unchanged and enqueues no event, and appends the termination notice — but
because `append_output` has no branch for the style string `'warning'`,
the notice is rendered in the default `text_primary` color, which differs
from the palette's warning (caution) color. -/
theorem stop_command_warning_style_bug :
    (stop_command st_active).1.log.getLast?
      = some ⟨"\n⚠ Command terminated by user\n", get_colors.text_primary,
              false⟩ ∧
    get_colors.text_primary ≠ get_colors.warning ∧
    (stop_command st_active).2.1 = true ∧
    (stop_command st_active).1.status_text = st_active.status_text ∧
    (stop_command st_active).1.current_process = some 1 ∧
    (stop_command st_active).2.2 = [] := by
  decide

/-- C8: when the save dialog returns a (nonempty) path, `save_output`
hands the file write exactly the full plain log text — no additional
framing — and returns whatever the write returns, so an I/O failure
propagates to the caller instead of being swallowed. -/
theorem save_output_writes_log_verbatim (st : TerminalState) (path : String)
    (write : String → String → Except String Unit) (h : path ≠ "") :
    save_output st path write = write path (plainText st.log) := by
  unfold save_output
  rw [if_neg h]

/-- Witness for C8: a failing write at a concrete state and path; the error
is returned to the caller. -/
theorem save_output_writes_log_verbatim_witness :
    save_output st_active "cyberguard_output.txt"
        (fun _ _ => Except.error "disk full")
      = Except.error "disk full" :=
  save_output_writes_log_verbatim st_active "cyberguard_output.txt"
    (fun _ _ => Except.error "disk full") (by decide)
